import Mathlib

/-!
A shallow embedding of the core of the BackEndTradeBot repository
(`app/core/wallet_service.py`, `app/core/bot_service.py`,
`app/core/trading_service.py` and the models in `app/models/`), together
with theorems settling the behavioural claims about it.

Conventions:
* Python floats are modelled as rationals (`ℚ`).
* Python exceptions are modelled as `Except` error values; the distinct
  exception classes of `app/models/exceptions.py` appear as constructors of
  `PyError`.
* Python dicts are modelled as association lists with unique keys; mutation
  is modelled by explicit state passing.
* Fernet authenticated encryption is idealised: a token remembers the key it
  was produced with, and decryption with any other key fails (`InvalidToken`),
  matching Fernet's guarantee that a wrong key never yields plaintext.
* The Binance client is the opaque gateway capability: a record of fallible
  operations (`Except String _` results model raised exceptions with their
  string message).
-/

namespace TradeBot

/-! ## Encryption (wallet_service.WalletService._encrypt/_decrypt) -/

/-- An idealised Fernet token: ciphertext produced under `key` carrying
`payload`.  Authenticated encryption: decryption under a different key is
detected and fails rather than yielding garbage. -/
structure EncToken where
  key : String
  payload : String
deriving DecidableEq, Repr

/-- Models `WalletService._encrypt`. -/
def encryptTok (key : String) (data : String) : EncToken := ⟨key, data⟩

/-- Models `WalletService._decrypt`: succeeds exactly when the token was produced
under the same process-wide key; otherwise the Fernet `InvalidToken`
exception is raised (modelled as the error string). -/
def decryptTok (key : String) (t : EncToken) : Except String String :=
  if t.key = key then .ok t.payload else .error "InvalidToken"

/-! ## Wallet records as Python dicts -/

/-- A value stored in a wallet record dict. -/
inductive WVal where
  | s (v : String)
  | b (v : Bool)
  | tok (v : EncToken)
deriving DecidableEq, Repr

/-- A wallet record: a Python dict with string keys. -/
abbrev WalletRec := List (String × WVal)

/-- Dict read: first binding for the key. -/
def dictGet (r : WalletRec) (k : String) : Option WVal :=
  (r.find? (fun p => p.1 = k)).map (·.2)

/-- Dict `pop`: removes the binding for the key (Python dicts hold at most
one binding per key, so removing every binding for it is the same
operation). -/
def dictPop (r : WalletRec) (k : String) : WalletRec :=
  match r with
  | [] => []
  | p :: t => if p.1 = k then dictPop t k else p :: dictPop t k

/-- The in-memory wallet store `WalletService._wallets`: dict from wallet id
to record. -/
abbrev Wallets := List (String × WalletRec)

/-- Store read `self._wallets[wallet_id]` / `wallet_id in self._wallets`. -/
def storeGet (st : Wallets) (k : String) : Option WalletRec :=
  (st.find? (fun p => p.1 = k)).map (·.2)

/-- Store write `self._wallets[wallet_id] = {...}`: overwrites an existing
binding, otherwise appends a new one. -/
def storeSet (st : Wallets) (k : String) (v : WalletRec) : Wallets :=
  if st.any (fun p => p.1 = k) then
    st.map (fun p => if p.1 = k then (k, v) else p)
  else
    st ++ [(k, v)]

/-! ## Wallet id derivation (base64 of the key's last 8 characters) -/

/-- UTF-8 encoding of one character (`str.encode`). -/
def utf8Char (c : Char) : List Nat :=
  let n := c.toNat
  if n < 0x80 then [n]
  else if n < 0x800 then [0xC0 + n / 64, 0x80 + n % 64]
  else if n < 0x10000 then [0xE0 + n / 4096, 0x80 + (n / 64) % 64, 0x80 + n % 64]
  else [0xF0 + n / 262144, 0x80 + (n / 4096) % 64, 0x80 + (n / 64) % 64, 0x80 + n % 64]

/-- UTF-8 bytes of a string. -/
def strBytes (s : String) : List Nat :=
  (s.data.map utf8Char).flatten

/-- The standard base64 alphabet. -/
def b64Alphabet : List Char :=
  "ABCDEFGHIJKLMNOPQRSTUVWXYZabcdefghijklmnopqrstuvwxyz0123456789+/".data

/-- Base64 digit for a 6-bit value. -/
def b64Char (n : Nat) : Char := b64Alphabet.getD n 'A'

/-- Standard base64 encoding with padding (`base64.b64encode`). -/
def b64Encode : List Nat → List Char
  | [] => []
  | [a] => [b64Char (a / 4), b64Char (a % 4 * 16), '=', '=']
  | [a, b] => [b64Char (a / 4), b64Char (a % 4 * 16 + b / 16), b64Char (b % 16 * 4), '=']
  | a :: b :: c :: rest =>
      b64Char (a / 4) :: b64Char (a % 4 * 16 + b / 16) ::
      b64Char (b % 16 * 4 + c / 64) :: b64Char (c % 64) :: b64Encode rest

/-- Python `s[-8:]`: the last eight characters (the whole string when it is
shorter). -/
def takeLast8 (s : String) : String :=
  String.mk (s.data.drop (s.data.length - 8))

/-- Models `wallet_id = base64.b64encode(api_key[-8:].encode()).decode()`
(wallet_service.py line 61). -/
def walletIdOf (apiKey : String) : String :=
  String.mk (b64Encode (strBytes (takeLast8 apiKey)))

/-! ## Exceptions (app/models/exceptions.py plus builtins used by the core) -/

/-- The exception classes raised by the core services. -/
inductive PyError where
  | valueError (msg : String)
  | binanceAPI (msg : String)
  | notFound (msg : String)
deriving DecidableEq, Repr

/-! ## The exchange gateway (app/core/binance_client.py, opaque capability) -/

/-- A raw balance entry of the exchange's `get_account` response (numeric
fields already converted). -/
structure RawBalance where
  asset : String
  free : ℚ
  locked : ℚ
deriving DecidableEq, Repr

/-- The parameters the trading service sends to `client.create_order`. -/
structure OrderParams where
  symbol : String
  side : String
  type : String
  timeInForce : Option String
  quantity : ℚ
  price : Option ℚ
deriving DecidableEq, Repr

/-- A raw exchange order response: a JSON dict whose fields may be absent.
Numeric amounts arrive as strings (hence `Option String` for `price` and the
quantities); timestamps as integers. -/
structure RawOrder where
  orderId : Option Nat
  symbol : Option String
  side : Option String
  type : Option String
  status : Option String
  origQty : Option String
  price : Option String
  executedQty : Option String
  cummulativeQuoteQty : Option String
  time : Option Nat
  updateTime : Option Nat
deriving DecidableEq, Repr

/-- The gateway capability: each operation may fail with an exception
carrying a message (`GatewayError`). -/
structure Gateway where
  testConnection : Except String Bool
  getPrice : String → Except String ℚ
  getAccount : Except String (List RawBalance)
  createOrder : OrderParams → Except String RawOrder

/-! ## WalletService operations (app/core/wallet_service.py) -/

/-- Python truthiness of an optional string (`wallet_name or default`):
`None` and the empty string are falsy. -/
def pyOrStr (v : Option String) (d : String) : String :=
  match v with
  | none => d
  | some s => if s = "" then d else s

/-- The record `connect_wallet` stores (wallet_service.py lines 68-74). -/
def connectRecord (svcKey : String) (apiKey apiSecret : String)
    (walletName : Option String) (useTestnet : Bool) (now : String) : WalletRec :=
  [("api_key", .tok (encryptTok svcKey apiKey)),
   ("api_secret", .tok (encryptTok svcKey apiSecret)),
   ("name", .s (pyOrStr walletName
      ("Wallet-" ++ String.mk ((walletIdOf apiKey).data.take 6)))),
   ("use_testnet", .b useTestnet),
   ("connected_at", .s now)]

/-- Models `WalletService.connect_wallet` (lines 38-81): probes connectivity, then
derives the wallet id from the API key's last 8 characters, encrypts both
secrets under the process-wide key and stores (or overwrites) the record.
Result: `(returned bool, updated store)`; exceptions are re-raised as
`BinanceAPIException`. -/
def connect_wallet (gw : Gateway) (svcKey : String) (st : Wallets)
    (apiKey apiSecret : String) (walletName : Option String)
    (useTestnet : Bool) (now : String) :
    Except PyError (Bool × Wallets) :=
  match gw.testConnection with
  | .error e => .error (.binanceAPI ("Erro ao conectar à carteira: " ++ e))
  | .ok false => .ok (false, st)
  | .ok true =>
      let wid := walletIdOf apiKey
      .ok (true, storeSet st wid (connectRecord svcKey apiKey apiSecret walletName useTestnet now))

/-- Models `WalletService.get_wallet` (lines 83-100) with the store threaded
explicitly: looks the record up, takes a `.copy()` and pops the two encrypted
credential fields from the copy; the store itself is left as the Python code
leaves it (only the copy is mutated). -/
def get_wallet_state (st : Wallets) (walletId : String) :
    Option WalletRec × Wallets :=
  match storeGet st walletId with
  | none => (none, st)
  | some w =>
      let walletInfo := w
      let walletInfo := dictPop walletInfo "api_key"
      let walletInfo := dictPop walletInfo "api_secret"
      (some walletInfo, st)

/-- Models `WalletService.get_wallet`, value part. -/
def get_wallet (st : Wallets) (walletId : String) : Option WalletRec :=
  (get_wallet_state st walletId).1

/-- Reads a stored record's field as an encrypted token
(`self._wallets[wallet_id]["api_key"]`): a missing binding is a `KeyError`,
a non-token value a type error. -/
def getRecTok (w : WalletRec) (field : String) : Except String EncToken :=
  match dictGet w field with
  | some (.tok t) => .ok t
  | _ => .error ("KeyError: " ++ field)

/-- Reads a stored record's boolean field (`["use_testnet"]`). -/
def getRecBool (w : WalletRec) (field : String) : Except String Bool :=
  match dictGet w field with
  | some (.b v) => .ok v
  | _ => .error ("KeyError: " ++ field)

/-- The credential-resolution sequence the services perform before any
gateway call made on behalf of a wallet:
`_decrypt(_wallets[id]["api_key"])`, `_decrypt(_wallets[id]["api_secret"])`,
`_wallets[id]["use_testnet"]`. -/
def resolveCreds (st : Wallets) (svcKey : String) (walletId : String) :
    Except String (String × String × Bool) := do
  let w ← match storeGet st walletId with
    | some w => Except.ok w
    | none => Except.error ("KeyError: " ++ walletId)
  let kt ← getRecTok w "api_key"
  let apiKey ← decryptTok svcKey kt
  let ks ← getRecTok w "api_secret"
  let apiSecret ← decryptTok svcKey ks
  let tn ← getRecBool w "use_testnet"
  .ok (apiKey, apiSecret, tn)

/-- An account balance projection (app/models/wallet.py `AssetBalance`). -/
structure AssetBalance where
  asset : String
  free : ℚ
  locked : ℚ
deriving DecidableEq, Repr

/-- Models `WalletService.get_wallet_balance` (lines 121-169): not-found check
raising `ValueError`, then a `try` block that resolves credentials, queries
the account and filters positive balances — any exception inside it
(including a decryption failure) is re-raised as `BinanceAPIException`. -/
def get_wallet_balance (st : Wallets) (svcKey : String) (gw : Gateway)
    (walletId : String) : Except PyError (List AssetBalance) :=
  if (storeGet st walletId).isNone then
    .error (.valueError "Carteira não encontrada ou não conectada")
  else
    let body : Except String (List AssetBalance) := do
      let _ ← resolveCreds st svcKey walletId
      let account ← gw.getAccount
      .ok ((account.filter (fun b => 0 < b.free ∨ 0 < b.locked)).map
        (fun b => ⟨b.asset, b.free, b.locked⟩))
    match body with
    | .ok balances => .ok balances
    | .error e => .error (.binanceAPI ("Erro ao obter saldo da carteira: " ++ e))

/-! ## Bot models (app/models/bot.py) -/

/-- Models `BotStatus`. -/
inductive BotStatus where
  | STOPPED
  | RUNNING
  | ERROR
deriving DecidableEq, Repr

/-- Models `BotStrategy`. -/
inductive BotStrategy where
  | SIMPLE
  | GRID
deriving DecidableEq, Repr

/-- Models `BotConfig` (validators already applied: symbol uppercase, interval ≥ 5,
amount > 0 — carried as data, not re-checked by the core). -/
structure BotConfig where
  symbol : String
  interval_seconds : Nat
  max_amount : ℚ
  wallet_id : String
  strategy : BotStrategy
  buy_threshold : Option ℚ
  sell_threshold : Option ℚ
deriving DecidableEq, Repr

/-- One entry of `_state["price_history"]`. -/
structure PriceSample where
  price : ℚ
  timestamp : String
deriving DecidableEq, Repr

/-- The distinct messages the bot writes into `_state["last_operation"]`,
one constructor per source format string. -/
inductive Operation where
  /-- Models `f"Bot iniciado para {config.symbol}"` -/
  | botStarted (symbol : String)
  /-- Models `"Bot parado pelo usuário"` -/
  | stoppedByUser
  /-- Models `f"Monitorando preço: {current_price}"` -/
  | monitoring (price : ℚ)
  /-- Models `f"Análise: Preço atual {current_price}, variação {pct:.2f}%"` -/
  | analysis (price : ℚ) (pct : ℚ)
  /-- Models `f"Sinal de compra detectado: Preço caiu {abs(pct):.2f}% (de {last} para {cur})"` -/
  | buySignal (pct last cur : ℚ)
  /-- Models `f"Sinal de venda detectado: Preço subiu {pct:.2f}% (de {last} para {cur})"` -/
  | sellSignal (pct last cur : ℚ)
  /-- Models `f"Análise grid trading: Preço atual {cur}, mudança de {pct:.2f}%"` -/
  | gridAnalysis (price : ℚ) (pct : ℚ)
  /-- Models `f"Erro ao executar estratégia: {str(e)}"` -/
  | strategyError (msg : String)
deriving DecidableEq, Repr

/-- The distinct messages written into `_state["error_message"]`. -/
inductive ErrMsg where
  /-- Models `"Configuração do bot não definida"` -/
  | noConfig
  /-- Models `f"Erro na API da Binance: {str(e)}"` -/
  | binanceApi (msg : String)
  /-- Models `f"Erro durante a execução do bot: {str(e)}"` -/
  | execution (msg : String)
  /-- Models `f"Erro fatal no loop do bot: {str(e)}"` -/
  | fatal (msg : String)
deriving DecidableEq, Repr

/-- The bot service's state: `_status`, `_config`, the `_state` dict, plus
the thread/stop-event flags (`_bot_thread.is_alive()`, `_stop_event`). -/
structure BotSState where
  status : BotStatus
  config : Option BotConfig
  start_time : Option String
  last_price : Option ℚ
  last_operation : Option Operation
  error_message : Option ErrMsg
  wallet_id : Option String
  symbol : Option String
  price_history : List PriceSample
  threadAlive : Bool
  stopRequested : Bool
deriving DecidableEq, Repr

/-- Models `BotService.__init__`'s state. -/
def initialBotState : BotSState :=
  { status := .STOPPED
    config := none
    start_time := none
    last_price := none
    last_operation := none
    error_message := none
    wallet_id := none
    symbol := none
    price_history := []
    threadAlive := false
    stopRequested := false }

/-! ## BotService (app/core/bot_service.py) -/

/-- Python `x or default` on an optional float: `None` and `0.0` are falsy
(`self._config.buy_threshold or 0.5`, bot_service.py lines 227-228). -/
def pyOrQ (v : Option ℚ) (d : ℚ) : ℚ :=
  match v with
  | none => d
  | some q => if q = 0 then d else q

/-- Python truthiness of the optional float `_state["last_price"]`
(`if not last_price:`): `None` and `0.0` are falsy. -/
def pyTruthyQ (v : Option ℚ) : Bool :=
  match v with
  | none => false
  | some q => decide (q ≠ 0)

/-- The history push of `_execute_strategy` (lines 191-196): append the new
sample, then `pop(0)` once if the length exceeds 100. -/
def pushPrice (h : List PriceSample) (s : PriceSample) : List PriceSample :=
  if 100 < (h ++ [s]).length then (h ++ [s]).drop 1 else h ++ [s]

/-- The fallible prefix shared by `start`'s probe and `_execute_strategy`:
resolve the wallet's credentials, build the client and fetch the current
price; the first raised exception aborts the sequence. -/
def credsAndPrice (st : Wallets) (svcKey : String) (gw : Gateway)
    (cfg : BotConfig) : Except String ℚ := do
  let _ ← resolveCreds st svcKey cfg.wallet_id
  gw.getPrice cfg.symbol

/-- Models `BotService._execute_simple_strategy` (lines 217-255): effective
thresholds via Python `or`, percent change, analysis note, then the
buy/sell/none branches overwrite the note. -/
def execute_simple_strategy (cfg : BotConfig) (lastPrice currentPrice : ℚ)
    (b : BotSState) : BotSState :=
  let buyThreshold := pyOrQ cfg.buy_threshold (1/2)
  let sellThreshold := pyOrQ cfg.sell_threshold 1
  let priceChangePercent := (currentPrice - lastPrice) / lastPrice * 100
  let b := { b with last_operation := some (.analysis currentPrice priceChangePercent) }
  if priceChangePercent ≤ -buyThreshold then
    { b with last_operation := some (.buySignal priceChangePercent lastPrice currentPrice) }
  else if sellThreshold ≤ priceChangePercent then
    { b with last_operation := some (.sellSignal priceChangePercent lastPrice currentPrice) }
  else b

/-- Models `BotService._execute_grid_strategy` (lines 257-271): records the grid
analysis note only. -/
def execute_grid_strategy (_cfg : BotConfig) (lastPrice currentPrice : ℚ)
    (b : BotSState) : BotSState :=
  let pct := (currentPrice - lastPrice) / lastPrice * 100
  { b with last_operation := some (.gridAnalysis currentPrice pct) }

/-- Models `BotService._execute_strategy` (lines 170-215).  Besides the updated
state it reports which `(last_price, current_price)` pair, if any, was
handed to a strategy routine (`none` when the first-observation branch or
the `except` branch returned first).  Every exception raised inside the
`try` block — credential lookup, decryption, client construction, price
fetch — is caught and recorded in `last_operation` only. -/
def execute_strategy (st : Wallets) (svcKey : String) (gw : Gateway)
    (now : String) (b : BotSState) : BotSState × Option (ℚ × ℚ) :=
  match b.config with
  | none => (b, none)
  | some cfg =>
    match credsAndPrice st svcKey gw cfg with
    | .error e => ({ b with last_operation := some (.strategyError e) }, none)
    | .ok currentPrice =>
      let b := { b with price_history := pushPrice b.price_history ⟨currentPrice, now⟩ }
      let lastPrice := b.last_price
      let b := { b with last_price := some currentPrice }
      if ¬ pyTruthyQ lastPrice then
        ({ b with last_operation := some (.monitoring currentPrice) }, none)
      else
        match lastPrice with
        | none => (b, none)
        | some lp =>
          match cfg.strategy with
          | .SIMPLE => (execute_simple_strategy cfg lp currentPrice b, some (lp, currentPrice))
          | .GRID => (execute_grid_strategy cfg lp currentPrice b, some (lp, currentPrice))

/-- One iteration of the `while` body of `BotService._run_bot_loop`
(lines 135-159), entered with the stop event unset.  Returns the new state
and whether the loop continues to the next iteration (`false` models a
`break`).  Exceptions raised by `_execute_strategy` itself never reach the
loop's handlers (its internal `except` swallows them), so the only `break`
reachable from inside an iteration is the missing-config check. -/
def run_bot_loop_iter (st : Wallets) (svcKey : String) (gw : Gateway)
    (now : String) (b : BotSState) : BotSState × Bool :=
  match b.config with
  | none =>
      ({ b with error_message := some .noConfig, status := .ERROR,
                threadAlive := false }, false)
  | some _ => ((execute_strategy st svcKey gw now b).1, true)

/-- Models `BotService.start` (lines 38-92), state threaded explicitly: the
already-running check, the wallet existence check, the credentials/probe
`try` block re-raised as `ValueError`, and only then the state mutations and
thread launch.  A raising path returns the state exactly as the raise left
it. -/
def start (st : Wallets) (svcKey : String) (gw : Gateway) (now : String)
    (cfg : BotConfig) (b : BotSState) : Except PyError Unit × BotSState :=
  if b.threadAlive then
    (.error (.valueError "O bot já está em execução"), b)
  else if (get_wallet st cfg.wallet_id).isNone then
    (.error (.valueError ("Carteira com ID " ++ cfg.wallet_id ++ " não encontrada")), b)
  else
    match credsAndPrice st svcKey gw cfg with
    | .error e =>
        (.error (.valueError ("Símbolo inválido ou erro de conexão: " ++ e)), b)
    | .ok price =>
        (.ok (),
         { status := .RUNNING
           config := some cfg
           start_time := some now
           last_price := some price
           last_operation := some (.botStarted cfg.symbol)
           error_message := none
           wallet_id := some cfg.wallet_id
           symbol := some cfg.symbol
           price_history := []
           threadAlive := true
           stopRequested := false })

/-- Models `BotService.stop` (lines 94-111): no-op returning `false` when no loop
is alive; otherwise sets the stop event, joins the thread and marks the bot
stopped. -/
def stopBot (b : BotSState) : Bool × BotSState :=
  if ¬ b.threadAlive then (false, b)
  else
    (true,
     { b with stopRequested := true, threadAlive := false,
              status := .STOPPED, last_operation := some .stoppedByUser })

/-- The states the bot service can reach from construction through any
interleaving of `start`, loop iterations (only while a loop is alive) and
`stop`, against arbitrary stores, keys and gateways. -/
inductive Reach : BotSState → Prop
  | init : Reach initialBotState
  | startStep (st : Wallets) (svcKey : String) (gw : Gateway) (now : String)
      (cfg : BotConfig) (b : BotSState) :
      Reach b → Reach (start st svcKey gw now cfg b).2
  | loopStep (st : Wallets) (svcKey : String) (gw : Gateway) (now : String)
      (b : BotSState) :
      Reach b → b.threadAlive = true → Reach (run_bot_loop_iter st svcKey gw now b).1
  | stopStep (b : BotSState) : Reach b → Reach (stopBot b).2

/-! ## Trading models (app/models/trading.py) -/

/-- Models `OrderSide`. -/
inductive OrderSide where
  | BUY
  | SELL
deriving DecidableEq, Repr

/-- Models `OrderType`. -/
inductive OrderType where
  | MARKET
  | LIMIT
deriving DecidableEq, Repr

/-- Models `OrderStatus`. -/
inductive OrderStatus where
  | NEW
  | PARTIALLY_FILLED
  | FILLED
  | CANCELED
  | REJECTED
  | EXPIRED
deriving DecidableEq, Repr

/-- Models `OrderResponse`. -/
structure OrderResponse where
  order_id : String
  symbol : String
  side : OrderSide
  type : OrderType
  status : OrderStatus
  quantity : ℚ
  price : Option ℚ
  executed_quantity : ℚ
  cumulative_quote_quantity : ℚ
  created_at : String
  updated_at : Option String
deriving DecidableEq, Repr

/-! ## TradingService (app/core/trading_service.py) -/

/-- Decimal digits to a natural number; `none` on a non-digit. -/
def digitsVal : List Char → Option Nat
  | [] => some 0
  | c :: cs =>
      if c.isDigit then
        (digitsVal cs).map (fun n => (c.toNat - '0'.toNat) * 10 ^ cs.length + n)
      else none

/-- Python `float(...)` on a decimal string: optional sign, digits, at most
one dot, at least one digit overall; `none` models the raised `ValueError`.
(Exchange amounts are plain decimals, so the exponent forms are out of
scope.) -/
def parseFloat (s : String) : Option ℚ :=
  let signAndDigits : ℚ × List Char :=
    match s.data with
    | '-' :: r => (-1, r)
    | '+' :: r => (1, r)
    | r => (1, r)
  let sign := signAndDigits.1
  let cs := signAndDigits.2
  match cs.span (fun c => ¬ c = '.') with
  | (intPart, []) =>
      if intPart = [] then none
      else (digitsVal intPart).map (fun n => sign * n)
  | (intPart, _dot :: fracPart) =>
      if fracPart.any (fun c => c = '.') then none
      else if intPart = [] ∧ fracPart = [] then none
      else
        match digitsVal intPart, digitsVal fracPart with
        | some i, some f => some (sign * ((i : ℚ) + (f : ℚ) / 10 ^ fracPart.length))
        | _, _ => none

/-- Models `OrderSide(...)` enum conversion; `none` models the raised `ValueError`
(also for the `None` argument a missing field produces). -/
def parseSide : Option String → Option OrderSide
  | some "BUY" => some .BUY
  | some "SELL" => some .SELL
  | _ => none

/-- Models `OrderType(...)` enum conversion. -/
def parseType : Option String → Option OrderType
  | some "MARKET" => some .MARKET
  | some "LIMIT" => some .LIMIT
  | _ => none

/-- Models `OrderStatus(...)` enum conversion. -/
def parseStatus : Option String → Option OrderStatus
  | some "NEW" => some .NEW
  | some "PARTIALLY_FILLED" => some .PARTIALLY_FILLED
  | some "FILLED" => some .FILLED
  | some "CANCELED" => some .CANCELED
  | some "REJECTED" => some .REJECTED
  | some "EXPIRED" => some .EXPIRED
  | _ => none

/-- Models `float(order_data.get("price", 0)) if order_data.get("price") else None`:
a missing or empty field is falsy and yields `None`; a non-empty field must
parse (outer `some`), else the exception propagates (outer `none`). -/
def parsePriceField : Option String → Option (Option ℚ)
  | none => some none
  | some s => if s = "" then some none else (parseFloat s).map some

/-- Models `float(order_data.get(field, 0))`: missing defaults to `0`, present must
parse. -/
def parseQtyDefault : Option String → Option ℚ
  | none => some 0
  | some s => parseFloat s

/-- Models `datetime.fromtimestamp(t/1000).isoformat()`, abstracted to an injective
encoding of the millisecond timestamp. -/
def isoOfMillis (t : Nat) : String := "ts:" ++ toString t

/-- The successful branch of `TradingService._create_order_response`
(lines 33-45); `none` when any conversion in it raises. -/
def tryOrderResponse (d : RawOrder) (now : String) : Option OrderResponse :=
  match d.symbol, parseSide d.side, parseType d.type, parseStatus d.status,
        d.origQty.bind parseFloat, parsePriceField d.price,
        parseQtyDefault d.executedQty, parseQtyDefault d.cummulativeQuoteQty with
  | some sym, some side, some ty, some status, some qty, some price, some ex, some cum =>
      some
        { order_id := match d.orderId with | some n => toString n | none => "None"
          symbol := sym
          side := side
          type := ty
          status := status
          quantity := qty
          price := price
          executed_quantity := ex
          cumulative_quote_quantity := cum
          created_at := match d.time with
            | some t => if t = 0 then now else isoOfMillis t
            | none => now
          updated_at := match d.updateTime with
            | some t => if t = 0 then none else some (isoOfMillis t)
            | none => none }
  | _, _, _, _, _, _, _, _ => none

/-- The `except` branch of `TradingService._create_order_response`
(lines 48-56): a best-effort record with side `BUY`, type `MARKET`, status
`NEW` and the model's defaults; `none` when even its own
`float(order_data.get("origQty", 0))` raises. -/
def fallbackOrderResponse (d : RawOrder) (now : String) : Option OrderResponse :=
  match parseQtyDefault d.origQty with
  | none => none
  | some qty =>
      some
        { order_id := match d.orderId with | some n => toString n | none => "unknown"
          symbol := d.symbol.getD "unknown"
          side := .BUY
          type := .MARKET
          status := .NEW
          quantity := qty
          price := none
          executed_quantity := 0
          cumulative_quote_quantity := 0
          created_at := now
          updated_at := none }

/-- Models `TradingService._create_order_response` (lines 21-56): the successful
conversion, falling back to the lenient record on any conversion error; an
error escaping the fallback itself propagates. -/
def create_order_response (d : RawOrder) (now : String) : Except Unit OrderResponse :=
  match tryOrderResponse d now with
  | some r => .ok r
  | none =>
      match fallbackOrderResponse d now with
      | some r => .ok r
      | none => .error ()

/-- The `create_order` argument dict built by `TradingService.place_buy_order`
(lines 105-120): a limit order with time-in-force GTC when a price is given,
a market order otherwise. -/
def buyOrderParams (symbol : String) (quantity : ℚ) (price : Option ℚ) : OrderParams :=
  match price with
  | some p =>
      { symbol := symbol, side := "BUY", type := "LIMIT",
        timeInForce := some "GTC", quantity := quantity, price := some p }
  | none =>
      { symbol := symbol, side := "BUY", type := "MARKET",
        timeInForce := none, quantity := quantity, price := none }

/-- The `create_order` argument dict built by `TradingService.place_sell_order`
(lines 152-167). -/
def sellOrderParams (symbol : String) (quantity : ℚ) (price : Option ℚ) : OrderParams :=
  match price with
  | some p =>
      { symbol := symbol, side := "SELL", type := "LIMIT",
        timeInForce := some "GTC", quantity := quantity, price := some p }
  | none =>
      { symbol := symbol, side := "SELL", type := "MARKET",
        timeInForce := none, quantity := quantity, price := none }

/-- The order ledger `TradingService._orders`. -/
abbrev OrdersMap := List (String × RawOrder)

/-- Ledger write `self._orders[key] = order_result` (dict assignment). -/
def ordersSet (st : OrdersMap) (k : String) (v : RawOrder) : OrdersMap :=
  if st.any (fun p => p.1 = k) then
    st.map (fun p => if p.1 = k then (k, v) else p)
  else
    st ++ [(k, v)]

/-- Shared body of `place_buy_order`/`place_sell_order` (lines 84-176):
wallet lookup (`NotFoundException` when absent), credential resolution
(raw decryption errors propagate out of `_get_binance_client_from_wallet`),
order submission with the given params builder, ledger insert keyed by
`str(order_result["orderId"])`, response conversion; every exception is
re-raised as `BinanceAPIException` with the side-specific prefix. -/
def placeOrder (mkParams : String → ℚ → Option ℚ → OrderParams) (prefixMsg : String)
    (vault : Wallets) (svcKey : String) (gw : Gateway) (orders : OrdersMap)
    (symbol : String) (quantity : ℚ) (walletId : String) (price : Option ℚ)
    (now : String) : Except PyError (OrderResponse × OrdersMap) :=
  let body : Except String (OrderResponse × OrdersMap) := do
    let _ ← match get_wallet vault walletId with
      | some w => Except.ok w
      | none => Except.error ("Carteira com ID " ++ walletId ++ " não encontrada")
    let _ ← resolveCreds vault svcKey walletId
    let orderResult ← gw.createOrder (mkParams symbol quantity price)
    let key ← match orderResult.orderId with
      | some n => Except.ok (toString n)
      | none => Except.error "KeyError: orderId"
    let orders := ordersSet orders key orderResult
    match create_order_response orderResult now with
    | .ok r => .ok (r, orders)
    | .error () => .error "could not convert string to float"
  match body with
  | .ok v => .ok v
  | .error e => .error (.binanceAPI (prefixMsg ++ e))

/-- Models `TradingService.place_buy_order` (lines 84-129). -/
def place_buy_order (vault : Wallets) (svcKey : String) (gw : Gateway)
    (orders : OrdersMap) (symbol : String) (quantity : ℚ) (walletId : String)
    (price : Option ℚ) (now : String) : Except PyError (OrderResponse × OrdersMap) :=
  placeOrder buyOrderParams "Erro ao executar ordem de compra: "
    vault svcKey gw orders symbol quantity walletId price now

/-- Models `TradingService.place_sell_order` (lines 131-176). -/
def place_sell_order (vault : Wallets) (svcKey : String) (gw : Gateway)
    (orders : OrdersMap) (symbol : String) (quantity : ℚ) (walletId : String)
    (price : Option ℚ) (now : String) : Except PyError (OrderResponse × OrdersMap) :=
  placeOrder sellOrderParams "Erro ao executar ordem de venda: "
    vault svcKey gw orders symbol quantity walletId price now

/-- Python truthiness of the raw `price` field (`order_data.get("price")`):
missing or empty string is falsy. -/
def pyTruthyStr (v : Option String) : Bool :=
  match v with
  | none => false
  | some s => decide (¬ s = "")

/-! ## Derived views used to state the claims -/

/-- The advisory signal of the spec's StrategyEngine. -/
inductive Signal where
  | NONE
  | BUY
  | SELL
deriving DecidableEq, Repr

/-- The branch `_execute_simple_strategy` takes, read off the source's
`if`/`elif` conditions (bot_service.py lines 240, 249) with the same
effective thresholds. -/
def simpleSignal (buyThr sellThr : Option ℚ) (lastPrice currentPrice : ℚ) : Signal :=
  let buyThreshold := pyOrQ buyThr (1/2)
  let sellThreshold := pyOrQ sellThr 1
  let priceChangePercent := (currentPrice - lastPrice) / lastPrice * 100
  if priceChangePercent ≤ -buyThreshold then .BUY
  else if sellThreshold ≤ priceChangePercent then .SELL
  else .NONE

/-- Modelled from the spec: the SIMPLE-strategy rule exactly as the claim
words it — `changePct <= -buyThreshold` with "buyThreshold defaulting to 0.5
when unset" (and sellThreshold to 1.0), i.e. a configured threshold is used
whenever it is present.  Stated for comparison with `simpleSignal`, the rule
the source implements. -/
def claimedSimpleSignal (buyThr sellThr : Option ℚ) (lastPrice currentPrice : ℚ) : Signal :=
  let buyThreshold := buyThr.getD (1/2)
  let sellThreshold := sellThr.getD 1
  let changePct := (currentPrice - lastPrice) / lastPrice * 100
  if changePct ≤ -buyThreshold then .BUY
  else if sellThreshold ≤ changePct then .SELL
  else .NONE

/-- The spec's §7 error taxonomy. -/
inductive SpecErrKind where
  | validation
  | notFoundKind
  | gatewayKind
  | credential
  | alreadyRunningKind
  | internal
deriving DecidableEq, Repr

/-- Modelled from the spec: the §7 mapping of the source's exception classes
onto the spec's error kinds — `ValueError` carries validation failures,
`BinanceAPIException` is the uniform `GatewayError` wrapper,
`NotFoundException` is `NotFoundError`.  No source exception class maps to
`credential`: the code base has no `CredentialError`. -/
def classifyError : PyError → SpecErrKind
  | .valueError _ => .validation
  | .binanceAPI _ => .gatewayKind
  | .notFound _ => .notFoundKind

/-! ## Concrete fixtures for witnesses and counterexamples -/

/-- A store holding one wallet under id `"w1"`, encrypted under key `"k0"`. -/
def testVault : Wallets := [("w1", connectRecord "k0" "AK" "AS" (some "W") true "t0")]

/-- A store whose wallet was encrypted under a key (`"oldKey"`) that differs
from the service's current key: the rotated-key scenario. -/
def wrongKeyVault : Wallets := [("w1", connectRecord "oldKey" "AK" "AS" (some "W") true "t0")]

/-- A gateway whose calls all succeed. -/
def gwOk : Gateway :=
  { testConnection := .ok true
    getPrice := fun _ => .ok 100
    getAccount := .ok []
    createOrder := fun _ =>
      .ok ⟨some 1, some "BTCUSDT", some "BUY", some "MARKET", some "NEW",
           some "2", none, none, none, none, none⟩ }

/-- A gateway whose price fetch (and the rest) fails. -/
def gwPriceFail : Gateway :=
  { testConnection := .ok true
    getPrice := fun _ => .error "boom"
    getAccount := .error "boom"
    createOrder := fun _ => .error "boom" }

/-- A valid `BotConfig` for the stored wallet, default thresholds. -/
def testCfg : BotConfig :=
  { symbol := "BTCUSDT", interval_seconds := 60, max_amount := 100,
    wallet_id := "w1", strategy := .SIMPLE,
    buy_threshold := none, sell_threshold := none }

/-- A valid `BotConfig` whose buy threshold is explicitly set to `0.0`. -/
def zeroBuyCfg : BotConfig :=
  { symbol := "BTCUSDT", interval_seconds := 60, max_amount := 100,
    wallet_id := "w1", strategy := .SIMPLE,
    buy_threshold := some 0, sell_threshold := none }

/-- The bot state right after a successful `start` of `testCfg` (with one
price already recorded as `last_price`). -/
def runningState : BotSState :=
  { status := .RUNNING
    config := some testCfg
    start_time := some "t0"
    last_price := some 100
    last_operation := some (.botStarted "BTCUSDT")
    error_message := none
    wallet_id := some "w1"
    symbol := some "BTCUSDT"
    price_history := []
    threadAlive := true
    stopRequested := false }

/-- A raw MARKET-order exchange response with no price field (and no
`origQty`, so the conversion takes the lenient fallback branch). -/
def rawMarketFix : RawOrder :=
  ⟨some 1, some "BTCUSDT", some "BUY", some "MARKET", some "NEW",
   none, none, none, none, none, none⟩

/-- The converted response for `rawMarketFix`. -/
def marketRespFix : OrderResponse :=
  { order_id := "1", symbol := "BTCUSDT", side := .BUY, type := .MARKET,
    status := .NEW, quantity := 0, price := none, executed_quantity := 0,
    cumulative_quote_quantity := 0, created_at := "now", updated_at := none }

/-- The bot state of a first loop iteration: started but no prior price. -/
def firstIterState : BotSState :=
  { runningState with last_price := none }

/-! # Theorems

First the shared helper lemmas, then one theorem per claim (with its witness
or counterexample where required). -/

/-- Monad-bind reduction for `Except`, success case. -/
theorem except_bind_ok {ε α β : Type} (a : α) (f : α → Except ε β) :
    ((Except.ok a : Except ε α) >>= f) = f a := rfl

/-- Monad-bind reduction for `Except`, failure case. -/
theorem except_bind_error {ε α β : Type} (e : ε) (f : α → Except ε β) :
    ((Except.error e : Except ε α) >>= f) = .error e := rfl

/-- A dict `pop` removes the binding: the popped key is no longer found. -/
theorem dictGet_dictPop_self (w : WalletRec) (k : String) :
    dictGet (dictPop w k) k = none := by
  induction w with
  | nil => rfl
  | cons a t ih =>
      by_cases h : a.1 = k
      · simpa [dictPop, h] using ih
      · simpa [dictPop, dictGet, List.find?_cons, h] using ih

/-- A dict `pop` leaves every other key's binding unchanged. -/
theorem dictGet_dictPop_ne (w : WalletRec) (k k' : String) (h : ¬ k' = k) :
    dictGet (dictPop w k) k' = dictGet w k' := by
  induction w with
  | nil => rfl
  | cons a t ih =>
      by_cases ha : a.1 = k
      · have ha' : ¬ a.1 = k' := fun hk => h (hk ▸ ha)
        rw [show dictPop (a :: t) k = dictPop t k by simp [dictPop, ha], ih]
        simp [dictGet, List.find?_cons, ha']
      · rw [show dictPop (a :: t) k = a :: dictPop t k by simp [dictPop, ha]]
        by_cases ha' : a.1 = k'
        · simp [dictGet, List.find?_cons, ha']
        · simpa [dictGet, List.find?_cons, ha'] using ih

/-- Store update followed by lookup of the same key finds the new record. -/
theorem storeGet_storeSet_self (st : Wallets) (k : String) (v : WalletRec) :
    storeGet (storeSet st k v) k = some v := by
  unfold storeSet
  by_cases h : st.any (fun p => p.1 = k)
  · rw [if_pos h]
    induction st with
    | nil => simp at h
    | cons a t ih =>
        by_cases ha : a.1 = k
        · simp [storeGet, List.find?_cons, ha]
        · have h' : t.any (fun p => p.1 = k) = true := by
            simpa [List.any_cons, ha] using h
          simpa [storeGet, List.find?_cons, ha] using ih h'
  · rw [if_neg h]
    induction st with
    | nil => simp [storeGet, List.find?_cons]
    | cons a t ih =>
        have ha : ¬ a.1 = k := fun hk => h (by simp [List.any_cons, hk])
        have h' : ¬ t.any (fun p => p.1 = k) = true := fun hk =>
          h (by simp [List.any_cons, hk])
        simpa [storeGet, List.find?_cons, ha] using ih h'

/-- A key with a stored record registers on `List.any`. -/
theorem any_of_storeGet_some (st : Wallets) (k : String) (w : WalletRec)
    (h : storeGet st k = some w) : st.any (fun p => p.1 = k) = true := by
  induction st with
  | nil => simp [storeGet] at h
  | cons a t ih =>
      by_cases ha : a.1 = k
      · simp [List.any_cons, ha]
      · simp only [storeGet, List.find?_cons] at h
        rw [show (decide (a.1 = k)) = false by simp [ha]] at h
        simp [List.any_cons, ih h]

/-- Overwriting an existing key leaves the store's key sequence unchanged:
no duplicate entry is created. -/
theorem map_fst_storeSet_of_any (st : Wallets) (k : String) (v : WalletRec)
    (h : st.any (fun p => p.1 = k) = true) :
    (storeSet st k v).map Prod.fst = st.map Prod.fst := by
  unfold storeSet
  rw [if_pos h, List.map_map]
  apply List.map_congr_left
  intro p _
  by_cases hp : p.1 = k
  · simp [hp]
  · simp [hp]

/-- The history push keeps the 100-sample cap. -/
theorem pushPrice_length_le (h : List PriceSample) (s : PriceSample)
    (hle : h.length ≤ 100) : (pushPrice h s).length ≤ 100 := by
  unfold pushPrice
  split
  · simp only [List.length_drop, List.length_append, List.length_cons,
      List.length_nil]
    omega
  · rename_i hc
    simp only [List.length_append, List.length_cons, List.length_nil] at hc ⊢
    omega

/-- Pushing onto a full history drops exactly the oldest sample. -/
theorem pushPrice_full (h : List PriceSample) (s : PriceSample)
    (hlen : h.length = 100) : pushPrice h s = h.drop 1 ++ [s] := by
  unfold pushPrice
  rw [if_pos (by simp [hlen])]
  rw [List.drop_append_of_le_length (by omega)]

/-- The routine `_execute_simple_strategy` only rewrites `last_operation`. -/
theorem execute_simple_strategy_history (cfg : BotConfig) (l c : ℚ) (b : BotSState) :
    (execute_simple_strategy cfg l c b).price_history = b.price_history := by
  simp only [execute_simple_strategy]
  split
  · rfl
  · split <;> rfl

/-- One `_execute_strategy` call either leaves the history alone (failure or
missing config) or performs exactly one bounded push. -/
theorem execute_strategy_history (st : Wallets) (k : String) (gw : Gateway)
    (now : String) (b : BotSState) :
    (execute_strategy st k gw now b).1.price_history = b.price_history ∨
    ∃ s, (execute_strategy st k gw now b).1.price_history = pushPrice b.price_history s := by
  simp only [execute_strategy]
  split
  · exact .inl rfl
  · split
    · exact .inl rfl
    · split
      · exact .inr ⟨_, rfl⟩
      · split
        · exact .inr ⟨_, rfl⟩
        · split
          · exact .inr ⟨_, by rw [execute_simple_strategy_history]⟩
          · exact .inr ⟨_, rfl⟩

/-- The price-history cap holds in every reachable state. -/
theorem reach_history_le (b : BotSState) (h : Reach b) :
    b.price_history.length ≤ 100 := by
  induction h with
  | init => simp [initialBotState]
  | startStep st k gw now cfg b hb ih =>
      unfold start
      split
      · exact ih
      · split
        · exact ih
        · split
          · exact ih
          · simp
  | loopStep st k gw now b hb halive ih =>
      unfold run_bot_loop_iter
      split
      · exact ih
      · rcases execute_strategy_history st k gw now b with heq | ⟨s, heq⟩
        · rw [heq]; exact ih
        · rw [heq]; exact pushPrice_length_le _ _ ih
  | stopStep b hb ih =>
      unfold stopBot
      split
      · exact ih
      · exact ih

/-- C5: in every reachable bot state the price history holds at most 100
samples, and pushing a new sample onto a history of exactly 100 entries
evicts the oldest entry (FIFO) while the pushed sample is present at the
end. -/
theorem claim_price_history_capacity :
    (∀ b : BotSState, Reach b → b.price_history.length ≤ 100) ∧
    (∀ (h : List PriceSample) (s : PriceSample), h.length = 100 →
      pushPrice h s = h.drop 1 ++ [s] ∧ (pushPrice h s).length = 100 ∧
      (pushPrice h s).getLast? = some s) := by
  refine ⟨reach_history_le, ?_⟩
  intro h s hlen
  have hfull := pushPrice_full h s hlen
  refine ⟨hfull, ?_, ?_⟩
  · rw [hfull]
    simp [hlen]
  · rw [hfull]
    exact List.getLast?_concat _

/-- Witness for C5 at the initial state and a concrete full history. -/
theorem claim_price_history_capacity_witness :
    initialBotState.price_history.length ≤ 100 ∧
    pushPrice (List.replicate 100 ⟨1, "t"⟩) ⟨2, "u"⟩ =
      (List.replicate 100 (⟨1, "t"⟩ : PriceSample)).drop 1 ++ [⟨2, "u"⟩] :=
  ⟨claim_price_history_capacity.1 initialBotState Reach.init,
   (claim_price_history_capacity.2 (List.replicate 100 ⟨1, "t"⟩) ⟨2, "u"⟩
      (by simp)).1⟩

/-- C10: `get_wallet` never mutates the vault — the projection it returns
lacks the two encrypted credential fields, but the stored record (and hence
any later credential resolution) is untouched, for any number of calls. -/
theorem claim_get_wallet_pure (st : Wallets) (wid : String) :
    (get_wallet_state st wid).2 = st ∧
    (∀ n : ℕ, (fun s => (get_wallet_state s wid).2)^[n] st = st) ∧
    (∀ w, storeGet st wid = some w →
      get_wallet st wid = some (dictPop (dictPop w "api_key") "api_secret") ∧
      dictGet (dictPop (dictPop w "api_key") "api_secret") "api_key" = none ∧
      dictGet (dictPop (dictPop w "api_key") "api_secret") "api_secret" = none ∧
      storeGet (get_wallet_state st wid).2 wid = some w ∧
      (∀ k, resolveCreds (get_wallet_state st wid).2 k wid = resolveCreds st k wid)) := by
  have hid : (get_wallet_state st wid).2 = st := by
    unfold get_wallet_state
    split <;> rfl
  refine ⟨hid, ?_, ?_⟩
  · intro n
    induction n with
    | zero => rfl
    | succ n ih => rw [Function.iterate_succ_apply', ih, hid]
  · intro w hw
    refine ⟨?_, ?_, ?_, ?_, ?_⟩
    · simp [get_wallet, get_wallet_state, hw]
    · rw [dictGet_dictPop_ne _ _ _ (by decide), dictGet_dictPop_self]
    · exact dictGet_dictPop_self _ _
    · rw [hid]; exact hw
    · intro k; rw [hid]

/-- Witness for C10 at the stored test wallet. -/
theorem claim_get_wallet_pure_witness :
    (get_wallet_state testVault "w1").2 = testVault ∧
    get_wallet testVault "w1" =
      some [("name", .s "W"), ("use_testnet", .b true), ("connected_at", .s "t0")] ∧
    dictGet (dictPop (dictPop (connectRecord "k0" "AK" "AS" (some "W") true "t0")
      "api_key") "api_secret") "api_key" = none :=
  ⟨(claim_get_wallet_pure testVault "w1").1,
   by
    rw [((claim_get_wallet_pure testVault "w1").2.2
      (connectRecord "k0" "AK" "AS" (some "W") true "t0") rfl).1]
    rfl,
   ((claim_get_wallet_pure testVault "w1").2.2
      (connectRecord "k0" "AK" "AS" (some "W") true "t0") rfl).2.1⟩

/-- C8: the wallet id is a deterministic encoding of the API key's last 8
characters, so two `connect_wallet` calls whose keys share that fragment
store under the same id, the second overwriting the first record without
creating a duplicate and without raising. -/
theorem claim_wallet_id_collision_overwrite
    (gw : Gateway) (svcKey : String) (st : Wallets)
    (k1 s1 k2 s2 : String) (n1 n2 : Option String) (t1 t2 : Bool) (d1 d2 : String)
    (hsuf : takeLast8 k1 = takeLast8 k2)
    (hconn : gw.testConnection = .ok true) :
    walletIdOf k1 = walletIdOf k2 ∧
    (∀ st1, connect_wallet gw svcKey st k1 s1 n1 t1 d1 = .ok (true, st1) →
      ∃ st2, connect_wallet gw svcKey st1 k2 s2 n2 t2 d2 = .ok (true, st2) ∧
        storeGet st2 (walletIdOf k1) = some (connectRecord svcKey k2 s2 n2 t2 d2) ∧
        st2.map Prod.fst = st1.map Prod.fst) := by
  have hid : walletIdOf k1 = walletIdOf k2 := by
    unfold walletIdOf
    rw [hsuf]
  refine ⟨hid, ?_⟩
  intro st1 h1
  simp only [connect_wallet, hconn, Except.ok.injEq, Prod.mk.injEq, true_and] at h1
  refine ⟨storeSet st1 (walletIdOf k2) (connectRecord svcKey k2 s2 n2 t2 d2),
    by simp only [connect_wallet, hconn], ?_, ?_⟩
  · rw [hid]
    exact storeGet_storeSet_self _ _ _
  · apply map_fst_storeSet_of_any
    apply any_of_storeGet_some _ _ (connectRecord svcKey k1 s1 n1 t1 d1)
    rw [← hid, ← h1]
    exact storeGet_storeSet_self _ _ _

/-- Witness for C8: two keys sharing the suffix `12345678`. -/
theorem claim_wallet_id_collision_overwrite_witness :
    walletIdOf "AAAA12345678" = walletIdOf "BBBB12345678" ∧
    (∃ st2, connect_wallet gwOk "k0"
        (storeSet [] (walletIdOf "AAAA12345678")
          (connectRecord "k0" "AAAA12345678" "S1" none true "d1"))
        "BBBB12345678" "S2" none true "d2" = .ok (true, st2) ∧
      storeGet st2 (walletIdOf "AAAA12345678") =
        some (connectRecord "k0" "BBBB12345678" "S2" none true "d2") ∧
      st2.map Prod.fst =
        (storeSet [] (walletIdOf "AAAA12345678")
          (connectRecord "k0" "AAAA12345678" "S1" none true "d1")).map Prod.fst) :=
  ⟨(claim_wallet_id_collision_overwrite gwOk "k0" [] "AAAA12345678" "S1"
      "BBBB12345678" "S2" none none true true "d1" "d2" (by decide) rfl).1,
   (claim_wallet_id_collision_overwrite gwOk "k0" [] "AAAA12345678" "S1"
      "BBBB12345678" "S2" none none true true "d1" "d2" (by decide) rfl).2 _ rfl⟩

/-- A successful `start` pins down the probe result and the whole new
state. -/
theorem start_ok_eq (st : Wallets) (k : String) (gw : Gateway) (now : String)
    (cfg : BotConfig) (b : BotSState)
    (hok : (start st k gw now cfg b).1 = .ok ()) :
    ∃ price, credsAndPrice st k gw cfg = .ok price ∧
      (start st k gw now cfg b).2 =
        { status := .RUNNING
          config := some cfg
          start_time := some now
          last_price := some price
          last_operation := some (.botStarted cfg.symbol)
          error_message := none
          wallet_id := some cfg.wallet_id
          symbol := some cfg.symbol
          price_history := []
          threadAlive := true
          stopRequested := false } := by
  unfold start at hok ⊢
  split at hok
  · exact absurd hok (by simp)
  · split at hok
    · exact absurd hok (by simp)
    · rename_i h1 h2
      rw [if_neg h1, if_neg h2]
      split at hok
      · exact absurd hok (by simp)
      · rename_i price hprice
        rw [hprice]
        exact ⟨price, rfl, rfl⟩

/-- C3: once a `start` has succeeded and the launched loop is still alive, a
second `start` raises the already-running `ValueError` and leaves the run's
state — in particular `start_time` — unchanged. -/
theorem claim_second_start_rejected
    (st : Wallets) (k : String) (gw : Gateway) (now : String) (cfg : BotConfig)
    (b : BotSState) (st2 : Wallets) (k2 : String) (gw2 : Gateway) (now2 : String)
    (cfg2 : BotConfig)
    (hok : (start st k gw now cfg b).1 = .ok ()) :
    (start st k gw now cfg b).2.threadAlive = true ∧
    start st2 k2 gw2 now2 cfg2 (start st k gw now cfg b).2 =
      (.error (.valueError "O bot já está em execução"), (start st k gw now cfg b).2) ∧
    (start st2 k2 gw2 now2 cfg2 (start st k gw now cfg b).2).2.start_time =
      (start st k gw now cfg b).2.start_time := by
  obtain ⟨price, hprice, heq⟩ := start_ok_eq st k gw now cfg b hok
  rw [heq]
  exact ⟨rfl, by simp [start], by simp [start]⟩

/-- Witness for C3 at a successful concrete start. -/
theorem claim_second_start_rejected_witness :
    (start testVault "k0" gwOk "t0" testCfg initialBotState).2.threadAlive = true ∧
    start testVault "k0" gwOk "t1" testCfg
        (start testVault "k0" gwOk "t0" testCfg initialBotState).2 =
      (.error (.valueError "O bot já está em execução"),
       (start testVault "k0" gwOk "t0" testCfg initialBotState).2) :=
  ⟨(claim_second_start_rejected testVault "k0" gwOk "t0" testCfg initialBotState
      testVault "k0" gwOk "t1" testCfg rfl).1,
   (claim_second_start_rejected testVault "k0" gwOk "t0" testCfg initialBotState
      testVault "k0" gwOk "t1" testCfg rfl).2.1⟩

/-- C4: when the wallet lookup succeeds but the `getPrice` probe fails,
`start` raises the invalid-config `ValueError` and performs no state
mutation: the returned state is the pre-call state, field for field. -/
theorem claim_start_probe_failure_no_mutation
    (st : Wallets) (k : String) (gw : Gateway) (now : String) (cfg : BotConfig)
    (b : BotSState) (w : WalletRec) (creds : String × String × Bool) (e : String)
    (halive : b.threadAlive = false)
    (hw : get_wallet st cfg.wallet_id = some w)
    (hcreds : resolveCreds st k cfg.wallet_id = .ok creds)
    (hprice : gw.getPrice cfg.symbol = .error e) :
    start st k gw now cfg b =
      (.error (.valueError ("Símbolo inválido ou erro de conexão: " ++ e)), b) ∧
    (start st k gw now cfg b).2.status = b.status ∧
    (start st k gw now cfg b).2.config = b.config ∧
    (start st k gw now cfg b).2.start_time = b.start_time ∧
    (start st k gw now cfg b).2.last_price = b.last_price ∧
    (start st k gw now cfg b).2.last_operation = b.last_operation ∧
    (start st k gw now cfg b).2.price_history = b.price_history := by
  have hcp : credsAndPrice st k gw cfg = .error e := by
    unfold credsAndPrice
    rw [hcreds]
    simpa using hprice
  have hmain : start st k gw now cfg b =
      (.error (.valueError ("Símbolo inválido ou erro de conexão: " ++ e)), b) := by
    unfold start
    rw [if_neg (by simp [halive]), if_neg (by simp [hw]), hcp]
  rw [hmain]
  exact ⟨rfl, rfl, rfl, rfl, rfl, rfl, rfl⟩

/-- Witness for C4 at a failing concrete probe. -/
theorem claim_start_probe_failure_no_mutation_witness :
    start testVault "k0" gwPriceFail "t0" testCfg initialBotState =
      (.error (.valueError "Símbolo inválido ou erro de conexão: boom"),
       initialBotState) :=
  (claim_start_probe_failure_no_mutation testVault "k0" gwPriceFail "t0" testCfg
    initialBotState
    [("name", .s "W"), ("use_testnet", .b true), ("connected_at", .s "t0")]
    ("AK", "AS", true) "boom" rfl rfl rfl rfl).1

/-- Counterexample to C1: with the bot running and the gateway's price
fetch failing, the loop iteration does not transition to `ERROR`, does not
set `error_message`, and continues to the next iteration — the failure is
swallowed inside `_execute_strategy`. -/
theorem cex_loop_gateway_error_not_terminal :
    (run_bot_loop_iter testVault "k0" gwPriceFail "t1" runningState).1.status ≠
      BotStatus.ERROR ∧
    (run_bot_loop_iter testVault "k0" gwPriceFail "t1" runningState).1.status =
      BotStatus.RUNNING ∧
    (run_bot_loop_iter testVault "k0" gwPriceFail "t1" runningState).1.error_message =
      none ∧
    (run_bot_loop_iter testVault "k0" gwPriceFail "t1" runningState).2 = true := by
  refine ⟨?_, rfl, rfl, rfl⟩
  rw [show (run_bot_loop_iter testVault "k0" gwPriceFail "t1" runningState).1.status =
    BotStatus.RUNNING from rfl]
  decide

/-- C1 (amended): a gateway or credential failure inside a loop iteration is
caught by `_execute_strategy` itself: the iteration records the failure text
in `last_operation` only, leaves `status` and `error_message` untouched, and
the loop continues — only the missing-config check can end the loop from
inside an iteration, and it is the one that sets `status = ERROR`. -/
theorem claim_loop_gateway_error_swallowed
    (st : Wallets) (k : String) (gw : Gateway) (now : String) (b : BotSState)
    (cfg : BotConfig) (e : String)
    (hcfg : b.config = some cfg)
    (herr : credsAndPrice st k gw cfg = .error e) :
    run_bot_loop_iter st k gw now b =
      ({ b with last_operation := some (.strategyError e) }, true) ∧
    (run_bot_loop_iter st k gw now b).1.status = b.status ∧
    (run_bot_loop_iter st k gw now b).1.error_message = b.error_message ∧
    (∀ b', b'.config = none →
      run_bot_loop_iter st k gw now b' =
        ({ b' with error_message := some .noConfig, status := .ERROR,
                   threadAlive := false }, false)) := by
  have hmain : run_bot_loop_iter st k gw now b =
      ({ b with last_operation := some (.strategyError e) }, true) := by
    simp only [run_bot_loop_iter, execute_strategy, hcfg, herr]
  refine ⟨hmain, ?_, ?_, ?_⟩
  · rw [hmain]
  · rw [hmain]
  · intro b' hb'
    simp only [run_bot_loop_iter, hb']

/-- Witness for C1's amended statement at a failing concrete gateway. -/
theorem claim_loop_gateway_error_swallowed_witness :
    run_bot_loop_iter testVault "k0" gwPriceFail "t1" runningState =
      ({ runningState with last_operation := some (.strategyError "boom") }, true) :=
  (claim_loop_gateway_error_swallowed testVault "k0" gwPriceFail "t1"
    runningState testCfg "boom" rfl rfl).1

/-- C9: the percent-change division only runs with a non-missing, non-zero
previous price — a strategy routine is handed `(last, current)` only when
the stored `last_price` was `some last` with `last ≠ 0`, and a `None` or
`0.0` previous price takes the first-observation monitoring branch and
returns before any strategy runs. -/
theorem claim_division_guard
    (st : Wallets) (k : String) (gw : Gateway) (now : String) (b : BotSState) :
    (∀ lp cur, (execute_strategy st k gw now b).2 = some (lp, cur) →
      b.last_price = some lp ∧ lp ≠ 0) ∧
    (∀ cfg p, b.config = some cfg → credsAndPrice st k gw cfg = .ok p →
      (b.last_price = none ∨ b.last_price = some 0) →
      (execute_strategy st k gw now b).1.last_operation = some (.monitoring p) ∧
      (execute_strategy st k gw now b).2 = none) := by
  constructor
  · intro lp cur h
    simp only [execute_strategy] at h
    split at h
    · exact absurd h (by simp)
    · split at h
      · exact absurd h (by simp)
      · split at h
        · exact absurd h (by simp)
        · rename_i hcond
          split at h
          · exact absurd h (by simp)
          · rename_i q hq
            rw [Decidable.not_not] at hcond
            have hq0 : q ≠ 0 := by
              simpa [pyTruthyQ, hq] using hcond
            split at h <;>
              (simp only [Prod.mk.injEq, Option.some.injEq] at h;
               exact ⟨by rw [hq, h.1], h.1 ▸ hq0⟩)
  · intro cfg p hcfg hp hlast
    have hfalsy : pyTruthyQ b.last_price = false := by
      rcases hlast with h | h <;> simp [pyTruthyQ, h]
    simp only [execute_strategy, hcfg, hp, hfalsy]
    exact ⟨rfl, rfl⟩

/-- Witness for C9: a strategy run at `last_price = some 100`, and a
monitoring pass at `last_price = none`. -/
theorem claim_division_guard_witness :
    (runningState.last_price = some 100 ∧ (100 : ℚ) ≠ 0) ∧
    (execute_strategy testVault "k0" gwOk "t1" firstIterState).1.last_operation =
      some (.monitoring 100) :=
  ⟨(claim_division_guard testVault "k0" gwOk "t1" runningState).1 100 100 rfl,
   ((claim_division_guard testVault "k0" gwOk "t1" firstIterState).2 testCfg 100
      rfl rfl (Or.inl rfl)).1⟩

/-- Counterexample to C2: with the wallet stored under a rotated key, the
balance lookup surfaces the decryption failure as `BinanceAPIException` —
the gateway error kind, not a distinct credential kind (no such kind exists
in the code). -/
theorem cex_decrypt_failure_not_credential_kind :
    get_wallet_balance wrongKeyVault "k0" gwOk "w1" =
      .error (.binanceAPI "Erro ao obter saldo da carteira: InvalidToken") ∧
    classifyError (.binanceAPI "Erro ao obter saldo da carteira: InvalidToken") =
      SpecErrKind.gatewayKind ∧
    classifyError (.binanceAPI "Erro ao obter saldo da carteira: InvalidToken") ≠
      SpecErrKind.credential :=
  ⟨rfl, rfl, by decide⟩

/-- C2 (amended): a decryption failure always raises — credential
resolution never yields plaintext under the wrong key — but it is reported
under the generic kinds, not a distinct `CredentialError`:
`get_wallet_balance` and order placement re-raise it as
`BinanceAPIException` (the gateway error wrapper), and `start` re-raises it
as the invalid-config `ValueError`, leaving the state unchanged. -/
theorem claim_decrypt_failure_error_kinds
    (st : Wallets) (k : String) (gw : Gateway) (wid : String) (w : WalletRec)
    (t : EncToken)
    (hw : storeGet st wid = some w)
    (ht : dictGet w "api_key" = some (.tok t))
    (hk : ¬ t.key = k) :
    resolveCreds st k wid = .error "InvalidToken" ∧
    get_wallet_balance st k gw wid =
      .error (.binanceAPI "Erro ao obter saldo da carteira: InvalidToken") ∧
    classifyError (.binanceAPI "Erro ao obter saldo da carteira: InvalidToken") =
      SpecErrKind.gatewayKind ∧
    (∀ orders sym qty price now,
      place_buy_order st k gw orders sym qty wid price now =
        .error (.binanceAPI "Erro ao executar ordem de compra: InvalidToken")) ∧
    (∀ now cfg b, cfg.wallet_id = wid → b.threadAlive = false →
      start st k gw now cfg b =
        (.error (.valueError "Símbolo inválido ou erro de conexão: InvalidToken"), b)) := by
  have hres : resolveCreds st k wid = .error "InvalidToken" := by
    simp only [resolveCreds, hw, getRecTok, ht, decryptTok, if_neg hk,
      except_bind_ok, except_bind_error]
  have hgw : get_wallet st wid = some (dictPop (dictPop w "api_key") "api_secret") := by
    simp [get_wallet, get_wallet_state, hw]
  refine ⟨hres, ?_, rfl, ?_, ?_⟩
  · unfold get_wallet_balance
    rw [hw, hres]
    rfl
  · intro orders sym qty price now
    unfold place_buy_order placeOrder
    rw [hgw, hres]
    rfl
  · intro now cfg b hcfg hb
    have hcp : credsAndPrice st k gw cfg = .error "InvalidToken" := by
      unfold credsAndPrice
      rw [hcfg, hres]
      rfl
    unfold start
    rw [if_neg (by simp [hb]), if_neg (by rw [hcfg]; simp [hgw]), hcp]
    rfl

/-- Witness for C2's amended statement at the rotated-key vault. -/
theorem claim_decrypt_failure_error_kinds_witness :
    resolveCreds wrongKeyVault "k0" "w1" = .error "InvalidToken" ∧
    start wrongKeyVault "k0" gwOk "t0" testCfg initialBotState =
      (.error (.valueError "Símbolo inválido ou erro de conexão: InvalidToken"),
       initialBotState) :=
  ⟨(claim_decrypt_failure_error_kinds wrongKeyVault "k0" gwOk "w1"
      (connectRecord "oldKey" "AK" "AS" (some "W") true "t0")
      (encryptTok "oldKey" "AK") rfl rfl (by decide)).1,
   (claim_decrypt_failure_error_kinds wrongKeyVault "k0" gwOk "w1"
      (connectRecord "oldKey" "AK" "AS" (some "W") true "t0")
      (encryptTok "oldKey" "AK") rfl rfl (by decide)).2.2.2.2 "t0" testCfg
      initialBotState rfl rfl⟩

/-- Counterexample to C6: a valid config may set `buy_threshold` to `0.0`;
the claimed rule (`changePct ≤ -buyThreshold` with the configured threshold)
then signals BUY on any drop, but the code's Python `or` treats `0.0` as
unset and falls back to the `0.5` default, emitting no signal at a `-0.1%`
change. -/
theorem cex_zero_threshold_uses_default :
    claimedSimpleSignal (some 0) none 100 (999/10) = .BUY ∧
    simpleSignal (some 0) none 100 (999/10) = .NONE ∧
    (execute_simple_strategy zeroBuyCfg 100 (999/10) runningState).last_operation =
      some (.analysis (999/10) (-1/10)) ∧
    zeroBuyCfg.buy_threshold = some 0 := by
  refine ⟨?_, ?_, ?_, rfl⟩
  · norm_num [claimedSimpleSignal]
  · norm_num [simpleSignal, pyOrQ]
  · norm_num [execute_simple_strategy, pyOrQ, zeroBuyCfg]

/-- C6 (amended): the SIMPLE strategy computes
`changePct = (current-last)/last*100` and emits BUY when
`changePct ≤ -buyThreshold`, SELL when `changePct ≥ sellThreshold` (first
match wins) and NONE otherwise, where the effective thresholds fall back to
`0.5` / `1.0` when the configured value is unset **or zero** (Python `or`);
in particular `last=100, current=99 ⇒ BUY`, `current=101 ⇒ SELL`,
`current=100.3 ⇒ NONE` under the defaults, and the signal is what
`_execute_simple_strategy` records in `last_operation`. -/
theorem claim_simple_strategy_rule
    (cfg : BotConfig) (lastPrice currentPrice : ℚ) (b : BotSState) :
    (simpleSignal cfg.buy_threshold cfg.sell_threshold lastPrice currentPrice = .BUY ↔
      (currentPrice - lastPrice) / lastPrice * 100 ≤ -(pyOrQ cfg.buy_threshold (1/2))) ∧
    (simpleSignal cfg.buy_threshold cfg.sell_threshold lastPrice currentPrice = .SELL ↔
      (¬ (currentPrice - lastPrice) / lastPrice * 100 ≤ -(pyOrQ cfg.buy_threshold (1/2)) ∧
       pyOrQ cfg.sell_threshold 1 ≤ (currentPrice - lastPrice) / lastPrice * 100)) ∧
    (simpleSignal cfg.buy_threshold cfg.sell_threshold lastPrice currentPrice = .NONE ↔
      (¬ (currentPrice - lastPrice) / lastPrice * 100 ≤ -(pyOrQ cfg.buy_threshold (1/2)) ∧
       ¬ pyOrQ cfg.sell_threshold 1 ≤ (currentPrice - lastPrice) / lastPrice * 100)) ∧
    (cfg.buy_threshold = none → pyOrQ cfg.buy_threshold (1/2) = 1/2) ∧
    (cfg.sell_threshold = none → pyOrQ cfg.sell_threshold 1 = 1) ∧
    (execute_simple_strategy cfg lastPrice currentPrice b).last_operation =
      some (match simpleSignal cfg.buy_threshold cfg.sell_threshold lastPrice currentPrice with
            | .BUY => Operation.buySignal
                ((currentPrice - lastPrice) / lastPrice * 100) lastPrice currentPrice
            | .SELL => Operation.sellSignal
                ((currentPrice - lastPrice) / lastPrice * 100) lastPrice currentPrice
            | .NONE => Operation.analysis currentPrice
                ((currentPrice - lastPrice) / lastPrice * 100)) ∧
    simpleSignal none none 100 99 = .BUY ∧
    simpleSignal none none 100 101 = .SELL ∧
    simpleSignal none none 100 (1003/10) = .NONE := by
  refine ⟨?_, ?_, ?_, fun h => by simp [h, pyOrQ], fun h => by simp [h, pyOrQ],
    ?_, by norm_num [simpleSignal, pyOrQ], by norm_num [simpleSignal, pyOrQ],
    by norm_num [simpleSignal, pyOrQ]⟩
  · simp only [simpleSignal]
    split_ifs with h1 h2
    · exact iff_of_true rfl h1
    · exact iff_of_false (by simp) h1
    · exact iff_of_false (by simp) h1
  · simp only [simpleSignal]
    split_ifs with h1 h2
    · exact iff_of_false (by simp) (fun hc => hc.1 h1)
    · exact iff_of_true rfl ⟨h1, h2⟩
    · exact iff_of_false (by simp) (fun hc => h2 hc.2)
  · simp only [simpleSignal]
    split_ifs with h1 h2
    · exact iff_of_false (by simp) (fun hc => hc.1 h1)
    · exact iff_of_false (by simp) (fun hc => hc.2 h2)
    · exact iff_of_true rfl ⟨h1, h2⟩
  · simp only [execute_simple_strategy, simpleSignal]
    split_ifs with h1 h2 <;> rfl

/-- Witness for C6's amended statement at the default thresholds. -/
theorem claim_simple_strategy_rule_witness :
    simpleSignal none none 100 99 = .BUY ∧
    pyOrQ (none : Option ℚ) (1/2) = 1/2 :=
  ⟨(claim_simple_strategy_rule testCfg 100 99 initialBotState).2.2.2.2.2.2.1,
   (claim_simple_strategy_rule testCfg 100 99 initialBotState).2.2.2.1 rfl⟩

/-- C7: order placement submits a MARKET order when no price is given and a
LIMIT order with time-in-force GTC when one is; and in the converted
`OrderResponse` of a well-formed exchange reply (a LIMIT reply echoes a
non-empty price), a missing `price` can only occur with type MARKET. -/
theorem claim_place_order_market_limit :
    (∀ sym q, buyOrderParams sym q none =
        { symbol := sym, side := "BUY", type := "MARKET", timeInForce := none,
          quantity := q, price := none } ∧
      sellOrderParams sym q none =
        { symbol := sym, side := "SELL", type := "MARKET", timeInForce := none,
          quantity := q, price := none }) ∧
    (∀ sym q p, buyOrderParams sym q (some p) =
        { symbol := sym, side := "BUY", type := "LIMIT", timeInForce := some "GTC",
          quantity := q, price := some p } ∧
      sellOrderParams sym q (some p) =
        { symbol := sym, side := "SELL", type := "LIMIT", timeInForce := some "GTC",
          quantity := q, price := some p }) ∧
    (∀ d now r, create_order_response d now = .ok r →
      (d.type = some "LIMIT" → pyTruthyStr d.price = true) →
      r.price = none → r.type = .MARKET) := by
  refine ⟨fun sym q => ⟨rfl, rfl⟩, fun sym q p => ⟨rfl, rfl⟩, ?_⟩
  intro d now r hok hwf hpn
  unfold create_order_response at hok
  split at hok
  · rename_i r0 htry
    injection hok with hok
    subst hok
    unfold tryOrderResponse at htry
    split at htry
    · rename_i sym side ty status qty price ex cum hsym hside hty hstatus hqty hprice hex hcum
      injection htry with htry
      subst htry
      simp only at hpn
      subst hpn
      cases ty with
      | MARKET => rfl
      | LIMIT =>
          exfalso
          have hdt : d.type = some "LIMIT" := by
            unfold parseType at hty
            split at hty
            · exact absurd hty (by simp)
            · assumption
            · exact absurd hty (by simp)
          have htr := hwf hdt
          unfold pyTruthyStr at htr
          split at htr
          · exact absurd htr (by simp)
          · rename_i s hs
            rw [hs] at hprice
            simp only [parsePriceField] at hprice
            rw [if_neg (by simpa using htr)] at hprice
            rcases Option.map_eq_some'.mp hprice with ⟨a, _, ha⟩
            exact absurd ha (by simp)
    · exact absurd htry (by simp)
  · split at hok
    · rename_i r1 hfb
      injection hok with hok
      subst hok
      unfold fallbackOrderResponse at hfb
      split at hfb
      · exact absurd hfb (by simp)
      · injection hfb with hfb
        subst hfb
        rfl
    · exact absurd hok (by simp)

/-- Witness for C7 at a concrete MARKET placement and reply. -/
theorem claim_place_order_market_limit_witness :
    buyOrderParams "BTCUSDT" 2 none =
      { symbol := "BTCUSDT", side := "BUY", type := "MARKET", timeInForce := none,
        quantity := 2, price := none } ∧
    create_order_response rawMarketFix "now" = .ok marketRespFix ∧
    marketRespFix.type = .MARKET :=
  ⟨(claim_place_order_market_limit.1 "BTCUSDT" 2).1, rfl,
   claim_place_order_market_limit.2.2 rawMarketFix "now" marketRespFix rfl
     (fun h => absurd h (by simp [rawMarketFix])) rfl⟩

end TradeBot
